import Mathlib

/-!
Shallow embedding of `demo28.py` (AI-assisted prescription decision support
prototype): data model, renal-function estimator, renal category classifier,
safety checks, and the suggestion engine, together with theorems checking the
natural-language specification against this code.

Modelling conventions:
* Python numbers (int/float) are modelled as `ℚ` (ages as `ℤ`); `round(x, 1)`
  is modelled as exact decimal rounding half-to-even (`pyRound1`).
* Python strings are Lean `String`s; `str.lower()`/`str.upper()` are
  modelled as mapping `Char.toLower`/`Char.toUpper` over the characters, and
  the Python substring test `a in b` as `substrB`.
* Python dicts appearing in the code (`DRUG_DB`, `renal_adjustment`,
  `INTERACTION_DB`) are association lists in insertion order, looked up with
  `List.lookup`; iteration over `dict.items()` is iteration over the list.
* `None`-able values are `Option`; a function that catches exceptions and
  returns `None` is modelled by returning `none` on the exceptional inputs
  (the only reachable exception in `estimate_creatinine_clearance` is
  `ZeroDivisionError`, i.e. a zero denominator).
* `suggest_medication`, which can raise `ValueError("Medication not in DB")`,
  is modelled in `Except String`.
-/

namespace Demo28

/-- Python `s.lower()` restricted to basic latin, as the CPython `str.lower`
acts on the ASCII drug and allergy names appearing here. -/
def pyLower (s : String) : String := ⟨s.data.map Char.toLower⟩

/-- Python `s.upper()` restricted to basic latin. -/
def pyUpper (s : String) : String := ⟨s.data.map Char.toUpper⟩

/-- Python substring containment `needle in hay` on the character lists. -/
def substrB (needle : List Char) : List Char → Bool
  | [] => needle.isEmpty
  | c :: t => needle.isPrefixOf (c :: t) || substrB needle t

/-- Round a rational to the nearest integer, ties to even — the rounding mode
of Python `round`. -/
def roundHalfEven (q : ℚ) : ℤ :=
  let f := ⌊q⌋
  if q - f < 1/2 then f
  else if q - f > 1/2 then f + 1
  else if f % 2 = 0 then f else f + 1

/-- Python `round(x, 1)`: one-decimal rounding, ties to even. -/
def pyRound1 (q : ℚ) : ℚ := (roundHalfEven (q * 10) : ℚ) / 10

/-- Decimal rendering of a one-decimal rational, standing in for the Python
f-string formatting of the float `ccr` in `suggest_medication`. -/
def ratRender (q : ℚ) : String :=
  let n := (q * 10).num
  let sign := if n < 0 then "-" else ""
  let m := n.natAbs
  sign ++ toString (m / 10) ++ "." ++ toString (m % 10)

/-- `Patient` dataclass of `demo28.py`. -/
structure Patient where
  id : String
  age : ℤ
  sex : String
  weight_kg : Option ℚ := none
  height_cm : Option ℚ := none
  serum_creatinine_mg_dl : Option ℚ := none
  allergies : List String := []
  pregnancy_status : Option Bool := none
  deriving DecidableEq

/-- `Medication` dataclass of `demo28.py`; the `renal_adjustment` dict is an
association list in insertion order. -/
structure Medication where
  rxnorm : Option String
  name : String
  standard_dose : String
  max_single_mg : Option ℚ := none
  notes : Option String := none
  renal_adjustment : Option (List (String × String)) := none
  deriving DecidableEq

/-- `Suggestion` dataclass of `demo28.py`. -/
structure Suggestion where
  med : Medication
  suggested_dose : String
  rationale : String
  warnings : List String
  deriving DecidableEq

/-- The `"amoxicillin"` entry of `DRUG_DB`. -/
def amoxicillin : Medication :=
  { rxnorm := some "0001"
    name := "Amoxicillin"
    standard_dose := "500 mg PO TID for 7 days"
    max_single_mg := some 1000
    notes := some "Common antibiotic for many infections"
    renal_adjustment := some
      [("eGFR>=50", "No adjustment"),
       ("30-49", "500 mg PO BID"),
       ("<30", "Avoid or dose per specialist")] }

/-- The `"enoxaparin"` entry of `DRUG_DB`. -/
def enoxaparin : Medication :=
  { rxnorm := some "0002"
    name := "Enoxaparin"
    standard_dose := "1 mg/kg SC q12h (or 40 mg daily prophylaxis)"
    max_single_mg := none
    notes := some "LMWH — requires renal dosing if eGFR<30"
    renal_adjustment := some
      [("eGFR>=30", "1 mg/kg q12h"),
       ("<30", "1 mg/kg q24h (reduce frequency) - consult renal")] }

/-- The `"metformin"` entry of `DRUG_DB`. -/
def metformin : Medication :=
  { rxnorm := some "0003"
    name := "Metformin"
    standard_dose := "500 mg PO BID, escalate as tolerated"
    notes := some "Check eGFR before initiation"
    renal_adjustment := some
      [("eGFR>=45", "No adjustment"),
       ("30-44", "Review risks; consider 50% reduction"),
       ("<30", "Contraindicated")] }

/-- The drug database `DRUG_DB`, as an association list in insertion order. -/
def DRUG_DB : List (String × Medication) :=
  [("amoxicillin", amoxicillin), ("enoxaparin", enoxaparin), ("metformin", metformin)]

/-- `estimate_creatinine_clearance` (`demo28.py`, lines 89–106): Cockcroft-Gault
with the 0.85 female factor, rounded to one decimal; `none` when weight or
creatinine is absent, or when the division raises `ZeroDivisionError`
(denominator `72 * scr = 0`), which the `except` clause turns into `None`. -/
def estimate_creatinine_clearance (patient : Patient) : Option ℚ :=
  match patient.serum_creatinine_mg_dl, patient.weight_kg with
  | none, _ => none
  | some _, none => none
  | some scr, some w =>
    if 72 * scr = 0 then none
    else
      let base := ((140 - (patient.age : ℚ)) * w) / (72 * scr)
      let base2 := if pyUpper patient.sex = "F" then base * 0.85 else base
      some (pyRound1 base2)

/-- `categorize_egfr` (`demo28.py`, lines 108–117), including the final
`return None` branch of the source. -/
def categorize_egfr (ccr : Option ℚ) : Option String :=
  match ccr with
  | none => none
  | some c =>
    if c ≥ 50 then some "eGFR>=50"
    else if 30 ≤ c ∧ c < 50 then some "30-49"
    else if c < 30 then some "<30"
    else none

/-- The allergy warning f-string of `check_allergy`. -/
def allergyMsg (a : String) (medName : String) : String :=
  "Allergy match: patient allergic to " ++ a ++ " — avoid " ++ medName

/-- The `for a in patient.allergies` loop of `check_allergy`: first allergy
whose lowercased name occurs in the lowercased medication name wins. -/
def allergyScan (medication : Medication) : List String → Option String
  | [] => none
  | a :: rest =>
    if substrB (pyLower a).data (pyLower medication.name).data then
      some (allergyMsg a medication.name)
    else allergyScan medication rest

/-- `check_allergy` (`demo28.py`, lines 122–126). -/
def check_allergy (patient : Patient) (medication : Medication) : Option String :=
  allergyScan medication patient.allergies

/-- `INTERACTION_DB` (`demo28.py`, lines 129–132). -/
def INTERACTION_DB : List ((String × String) × String) :=
  [(("metformin", "contrast_media"), "Hold metformin around iodinated contrast in CKD"),
   (("enoxaparin", "warfarin"), "Increased bleeding risk — monitor INR & adjust")]

/-- The `if key in INTERACTION_DB: … elif rev_key in INTERACTION_DB: …` body
of `check_interactions`: look up the pair, then its reversal. -/
def pairLookupBoth (a b : String) : Option String :=
  match INTERACTION_DB.lookup (a, b) with
  | some v => some v
  | none => INTERACTION_DB.lookup (b, a)

/-- `check_interactions` (`demo28.py`, lines 134–143); the loop appends at
most one warning per current medication, in list order. -/
def check_interactions (current_med_names : List String) (candidate : Medication) : List String :=
  match current_med_names with
  | [] => []
  | cm :: rest =>
    (match pairLookupBoth (pyLower candidate.name) (pyLower cm) with
     | some v => [v]
     | none => []) ++ check_interactions rest candidate

/-- `is_duplicate` (`demo28.py`, lines 145–146). -/
def is_duplicate (current_med_names : List String) (candidate : Medication) : Bool :=
  (current_med_names.map pyLower).contains (pyLower candidate.name)

/-- Python truthiness of `egfr_cat : Optional[str]`: `None` and `""` are falsy. -/
def truthyStr : Option String → Bool
  | none => false
  | some s => !s.data.isEmpty

/-- Python truthiness of `renal_adjustment : Optional[Dict]`: `None` and `{}`
are falsy. -/
def truthyRules : Option (List (String × String)) → Bool
  | none => false
  | some l => !l.isEmpty

/-- The `for k, v in adj_rules.items()` fallback loop of `suggest_medication`
(lines 184–188): each key containing `"-"` and *equal* to the category
overwrites the dose and appends a rationale clause. -/
def dashFallback (cat : String) : List (String × String) → String × List String → String × List String
  | [], acc => acc
  | (k, v) :: rest, acc =>
    if substrB "-".data k.data && (cat == k) then
      dashFallback cat rest (v, acc.2 ++ ["Renal adjustment applied for " ++ k ++ ": " ++ v])
    else
      dashFallback cat rest acc

/-- The clinician-review rationale clause of `suggest_medication` (line 191). -/
def reviewMsg : String :=
  "Renal adjustment possible but missing patient creatinine/weight — clinician review needed"

/-- The renal-adjustment block of `suggest_medication` (`demo28.py`, lines
176–191), factored out as the spec's dose resolver: starting from the
standard dose and the standard-dose rationale clause, apply the exact-match
rule, the dash fallback loop, or the review clause. The `Option.getD`
defaults are unreachable: the truthiness guard ensures both options are
`some`. -/
def resolve_dose (med : Medication) (egfr_cat : Option String) : String × List String :=
  let parts := ["Standard dose: " ++ med.standard_dose]
  if truthyStr egfr_cat && truthyRules med.renal_adjustment then
    let cat := egfr_cat.getD ""
    let adj_rules := med.renal_adjustment.getD []
    match adj_rules.lookup cat with
    | some v => (v, parts ++ ["Renal adjustment applied for " ++ cat ++ ": " ++ v])
    | none => dashFallback cat adj_rules (med.standard_dose, parts)
  else if truthyRules med.renal_adjustment then
    (med.standard_dose, parts ++ [reviewMsg])
  else
    (med.standard_dose, parts)

/-- Python `"; ".join(parts)`. -/
def joinSemi : List String → String
  | [] => ""
  | [x] => x
  | x :: rest => x ++ "; " ++ joinSemi rest

/-- The CrCl disclosure warning f-string of `suggest_medication` (line 196). -/
def crclMsg (ccr : ℚ) : String :=
  "Estimated CrCl (Cockcroft-Gault): " ++ ratRender ccr ++ " mL/min"

/-- `suggest_medication` (`demo28.py`, lines 151–203); the
`raise ValueError("Medication not in DB")` is modelled as `Except.error`. -/
def suggest_medication (patient : Patient) (candidate_key : String)
    (current_meds : List Medication) : Except String Suggestion :=
  match DRUG_DB.lookup (pyLower candidate_key) with
  | none => Except.error "Medication not in DB"
  | some med =>
    let allergyW := match check_allergy patient med with | some s => [s] | none => []
    let dupW :=
      if is_duplicate (current_meds.map (fun m => m.name)) med then
        ["Duplicate therapy: patient is already on " ++ med.name]
      else []
    let interW := check_interactions (current_meds.map (fun m => m.name)) med
    let ccr := estimate_creatinine_clearance patient
    let egfr_cat := categorize_egfr ccr
    let dr := resolve_dose med egfr_cat
    let rationale := joinSemi dr.2
    let crclW := match ccr with | some q => [crclMsg q] | none => []
    Except.ok
      { med := med
        suggested_dose := dr.1
        rationale := rationale
        warnings := allergyW ++ dupW ++ interW ++ crclW }

/-- The demo patient of `demo28.py` (lines 230–239). -/
def demoPatient : Patient :=
  { id := "P001"
    age := 72
    sex := "F"
    weight_kg := some 60
    height_cm := some 155
    serum_creatinine_mg_dl := some 1.6
    allergies := ["penicillin"]
    pregnancy_status := some false }

/-- A patient whose negative serum creatinine slips through the estimator:
the division raises no exception, so a numeric clearance comes back. -/
def negCrPatient : Patient :=
  { id := "P-neg"
    age := 40
    sex := "M"
    weight_kg := some 72
    serum_creatinine_mg_dl := some (-1) }

/-! ## Helper lemmas -/

/-- `Char.toUpper` sends exactly `'F'` and `'f'` to `'F'`. -/
theorem char_toUpper_eq_F_iff (c : Char) : c.toUpper = 'F' ↔ c = 'F' ∨ c = 'f' := by
  constructor
  · intro h
    unfold Char.toUpper at h
    simp only [] at h
    split at h
    · rename_i hc
      obtain ⟨h97, h122⟩ := hc
      have h1 := Char.ofNat_toNat c
      set n := c.toNat with hn
      interval_cases n <;>
        first
          | exact absurd h (by decide)
          | exact Or.inr (by rw [← h1]; try decide)
    · exact Or.inl h
  · rintro (rfl | rfl) <;> decide

/-- The sex-code comparison `patient.sex.upper() == "F"` succeeds exactly on
the strings `"F"` and `"f"`. -/
theorem pyUpper_eq_F_iff (s : String) : pyUpper s = "F" ↔ s = "F" ∨ s = "f" := by
  obtain ⟨l⟩ := s
  constructor
  · intro h
    have hd : l.map Char.toUpper = ['F'] := congrArg String.data h
    cases l with
    | nil => simp at hd
    | cons c t =>
      cases t with
      | nil =>
        have hc : c.toUpper = 'F' := by simpa using hd
        rcases (char_toUpper_eq_F_iff c).1 hc with h' | h' <;> [left; right] <;> rw [h']
      | cons d t2 => simp at hd
  · rintro (h | h) <;> rw [h] <;> decide

/-- The fallback loop of the dose resolver is inert whenever the category is
not a key of the rules: its guard demands `egfr_cat == k` for a key `k`, which
the failed exact lookup already rules out. -/
theorem dashFallback_of_lookup_none (cat : String) (rules : List (String × String))
    (acc : String × List String) (h : rules.lookup cat = none) :
    dashFallback cat rules acc = acc := by
  induction rules generalizing acc with
  | nil => rfl
  | cons p rest ih =>
    obtain ⟨k, v⟩ := p
    simp only [List.lookup] at h
    cases hbe : (cat == k) with
    | true => rw [hbe] at h; exact absurd h (by simp)
    | false =>
      rw [hbe] at h
      simp only [dashFallback, hbe, Bool.and_false, if_false]
      exact ih acc h

/-- The allergy loop returns a warning exactly when some allergy, lowercased,
is a substring of the lowercased medication name. -/
theorem allergyScan_isSome_iff (m : Medication) (l : List String) :
    (allergyScan m l).isSome = true ↔
      ∃ a ∈ l, substrB (pyLower a).data (pyLower m.name).data = true := by
  induction l with
  | nil => simp [allergyScan]
  | cons a rest ih =>
    simp only [allergyScan]
    by_cases h : substrB (pyLower a).data (pyLower m.name).data = true
    · simp [h]
    · rw [if_neg h]
      simp [h, ih]

/-- The interaction loop produces, per current medication and in list order,
at most one warning: the both-orderings lookup of the lowercased pair. -/
theorem check_interactions_eq_filterMap (names : List String) (cand : Medication) :
    check_interactions names cand =
      names.filterMap fun cm => pairLookupBoth (pyLower cand.name) (pyLower cm) := by
  induction names with
  | nil => rfl
  | cons cm rest ih =>
    simp only [check_interactions, List.filterMap_cons, ih]
    cases pairLookupBoth (pyLower cand.name) (pyLower cm) <;> simp

/-- Whether the both-orderings interaction lookup finds a warning does not
depend on the order of the pair. -/
theorem pairLookupBoth_isSome_comm (a b : String) :
    (pairLookupBoth a b).isSome = (pairLookupBoth b a).isSome := by
  have key : ∀ x y : String, (pairLookupBoth x y).isSome =
      ((INTERACTION_DB.lookup (x, y)).isSome || (INTERACTION_DB.lookup (y, x)).isSome) := by
    intro x y
    unfold pairLookupBoth
    cases INTERACTION_DB.lookup (x, y) <;> simp
  rw [key, key, Bool.or_comm]

/-- The demo patient's clearance: ((140 − 72) · 60) / (72 · 1.6) · 0.85 =
30.104…, rounded to one decimal is 30.1. -/
theorem demoPatient_estimate : estimate_creatinine_clearance demoPatient = some (301 / 10) := by
  simp only [demoPatient, estimate_creatinine_clearance]
  rw [if_neg (by norm_num : ¬((72:ℚ) * 1.6 = 0)), if_pos (show pyUpper "F" = "F" from by decide)]
  unfold pyRound1 roundHalfEven
  norm_num

/-- The negative-creatinine patient's clearance: ((140 − 40) · 72) / (72 · (−1))
= −100; the division raises nothing, so a numeric value comes back. -/
theorem negCrPatient_estimate : estimate_creatinine_clearance negCrPatient = some (-100) := by
  simp only [negCrPatient, estimate_creatinine_clearance]
  rw [if_neg (by norm_num : ¬((72:ℚ) * (-1) = 0)),
      if_neg (show ¬(pyUpper "M" = "F") from by decide)]
  unfold pyRound1 roundHalfEven
  norm_num

/-! ## Claim theorems -/

/-- C1: for every patient whose weight and serum creatinine are present and
whose creatinine is strictly positive, `estimate_creatinine_clearance` returns
exactly the Cockcroft-Gault value `((140 - age) * weight) / (72 * scr)`
rounded to one decimal, with the 0.85 factor applied before rounding iff the
sex code is `"F"` or `"f"`; any other sex code gets no correction. -/
theorem C1_cockcroft_gault (i : String) (age : ℤ) (sex : String) (w : ℚ)
    (hcm : Option ℚ) (scr : ℚ) (al : List String) (pg : Option Bool)
    (hscr : 0 < scr) :
    estimate_creatinine_clearance ⟨i, age, sex, some w, hcm, some scr, al, pg⟩ =
      some (pyRound1
        (if sex = "F" ∨ sex = "f" then ((140 - (age : ℚ)) * w) / (72 * scr) * 0.85
         else ((140 - (age : ℚ)) * w) / (72 * scr))) := by
  simp only [estimate_creatinine_clearance]
  rw [if_neg (show ¬((72:ℚ) * scr = 0) from (by positivity : (0:ℚ) < 72 * scr).ne')]
  simp only [pyUpper_eq_F_iff]

/-- Witness for C1 at the demo patient (age 72, sex "F", 60 kg, 1.6 mg/dL). -/
theorem C1_witness :
    (0:ℚ) < 1.6 ∧
      estimate_creatinine_clearance demoPatient =
        some (pyRound1 (((140 - ((72:ℤ) : ℚ)) * 60) / (72 * 1.6) * 0.85)) :=
  ⟨by norm_num,
   C1_cockcroft_gault "P001" 72 "F" 60 (some 155) 1.6 ["penicillin"] (some false) (by norm_num)⟩

/-- C2: `categorize_egfr` returns unknown exactly on unknown input, and maps
every numeric clearance into exactly one of the three half-open bands:
clearance ≥ 50 to `"eGFR>=50"`, 30 ≤ clearance < 50 to `"30-49"`, and
clearance < 30 to `"<30"`; no numeric input is left uncategorized. -/
theorem C2_categorize_partition :
    categorize_egfr none = none ∧
      ∀ q : ℚ, categorize_egfr (some q) =
        some (if 50 ≤ q then "eGFR>=50" else if 30 ≤ q then "30-49" else "<30") := by
  refine ⟨rfl, fun q => ?_⟩
  simp only [categorize_egfr, ge_iff_le]
  by_cases h1 : 50 ≤ q
  · rw [if_pos h1, if_pos h1]
  · rw [if_neg h1, if_neg h1]
    by_cases h2 : 30 ≤ q
    · rw [if_pos (show 30 ≤ q ∧ q < 50 from ⟨h2, lt_of_not_le h1⟩), if_pos h2]
    · rw [if_neg (fun hh => h2 hh.1), if_pos (lt_of_not_le h2), if_neg h2]

/-- C3 counterexample: a patient with weight and creatinine present but a
strictly negative creatinine (−1 mg/dL) does not get `None`: the formula
raises no exception there and the estimator returns the numeric value −100. -/
theorem C3_counterexample :
    estimate_creatinine_clearance negCrPatient = some (-100) ∧
      estimate_creatinine_clearance negCrPatient ≠ none :=
  ⟨negCrPatient_estimate, by rw [negCrPatient_estimate]; exact Option.some_ne_none _⟩

/-- C3 amended: with weight and creatinine present, a creatinine of exactly
zero makes `estimate_creatinine_clearance` return unknown (`None`) — the
`ZeroDivisionError` is caught, never reaching the caller (the embedding is a
total function, so no exception escapes by construction) — while a strictly
negative creatinine causes no arithmetic failure and instead yields a numeric
(negative) estimate. -/
theorem C3_amended :
    (∀ (i : String) (age : ℤ) (sex : String) (w : ℚ) (hcm : Option ℚ)
        (al : List String) (pg : Option Bool),
        estimate_creatinine_clearance ⟨i, age, sex, some w, hcm, some 0, al, pg⟩ = none) ∧
    (∀ (i : String) (age : ℤ) (sex : String) (w scr : ℚ) (hcm : Option ℚ)
        (al : List String) (pg : Option Bool), scr < 0 →
        (estimate_creatinine_clearance ⟨i, age, sex, some w, hcm, some scr, al, pg⟩).isSome
          = true) := by
  constructor
  · intro i age sex w hcm al pg
    simp [estimate_creatinine_clearance]
  · intro i age sex w scr hcm al pg hscr
    simp only [estimate_creatinine_clearance]
    rw [if_neg (show ¬((72:ℚ) * scr = 0) from (by nlinarith : (72:ℚ) * scr < 0).ne)]
    rfl

/-- Witness for C3 amended: zero creatinine gives unknown, creatinine −1 gives
a numeric result. -/
theorem C3_amended_witness :
    estimate_creatinine_clearance ⟨"P-zero", 40, "M", some 72, none, some 0, [], none⟩ = none ∧
      (estimate_creatinine_clearance
        ⟨"P-neg2", 40, "M", some 72, none, some (-1), [], none⟩).isSome = true :=
  ⟨C3_amended.1 "P-zero" 40 "M" 72 none [] none,
   C3_amended.2 "P-neg2" 40 "M" 72 (-1) none [] none (by norm_num)⟩

/-- C4: whenever a medication has (nonempty) adjustment rules and the renal
category is known (a nonempty label) but is not an exact key of the rules,
the resolved dose is the standard dose and the rationale holds only the
standard-dose clause: the ranged-key fallback loop never changes the dose,
because its guard requires exact equality with the category label. -/
theorem C4_no_ranged_fallback (med : Medication) (rules : List (String × String)) (cat : String)
    (hr : med.renal_adjustment = some rules) (hcat : cat ≠ "") (hrules : rules ≠ [])
    (hmiss : rules.lookup cat = none) :
    resolve_dose med (some cat) = (med.standard_dose, ["Standard dose: " ++ med.standard_dose]) := by
  have ht1 : truthyStr (some cat) = true := by
    simp only [truthyStr, Bool.not_eq_true']
    cases hc : cat.data with
    | nil => exact absurd (by cases cat; simp_all : cat = "") hcat
    | cons c t => rfl
  have ht2 : truthyRules (some rules) = true := by
    cases rules with
    | nil => exact absurd rfl hrules
    | cons q t => rfl
  simp only [resolve_dose, hr, ht1, ht2, Bool.and_self, if_true, Option.getD_some, hmiss]
  exact dashFallback_of_lookup_none cat rules _ hmiss

/-- Witness for C4: enoxaparin's rules key on "eGFR>=30" and "<30", so the
category "30-49" has no exact key and the standard dose survives. -/
theorem C4_witness :
    resolve_dose enoxaparin (some "30-49") =
      (enoxaparin.standard_dose, ["Standard dose: " ++ enoxaparin.standard_dose]) :=
  C4_no_ranged_fallback enoxaparin
    [("eGFR>=30", "1 mg/kg q12h"), ("<30", "1 mg/kg q24h (reduce frequency) - consult renal")]
    "30-49" rfl (by decide) (by decide) (by decide)

/-- C5: for every patient missing weight or missing serum creatinine and every
catalog medication with (nonempty) adjustment rules, the estimator returns
unknown, the classifier returns unknown, and the suggestion carries the
standard dose with the rationale made of the standard-dose clause followed by
the missing-data / clinician-review clause. -/
theorem C5_missing_data (p : Patient) (key : String) (meds : List Medication)
    (med : Medication) (rules : List (String × String))
    (hmiss : p.weight_kg = none ∨ p.serum_creatinine_mg_dl = none)
    (hdb : DRUG_DB.lookup (pyLower key) = some med)
    (hr : med.renal_adjustment = some rules) (hne : rules ≠ []) :
    estimate_creatinine_clearance p = none ∧
    categorize_egfr (estimate_creatinine_clearance p) = none ∧
    ∃ s, suggest_medication p key meds = Except.ok s ∧
      s.suggested_dose = med.standard_dose ∧
      s.rationale = joinSemi ["Standard dose: " ++ med.standard_dose, reviewMsg] := by
  have hest : estimate_creatinine_clearance p = none := by
    rcases hmiss with hw | hs
    · cases hscr : p.serum_creatinine_mg_dl <;> simp [estimate_creatinine_clearance, hscr, hw]
    · simp [estimate_creatinine_clearance, hs]
  have hcat : categorize_egfr (estimate_creatinine_clearance p) = none := by rw [hest]; rfl
  have ht2 : truthyRules (some rules) = true := by
    cases rules with
    | nil => exact absurd rfl hne
    | cons q t => rfl
  have hres : resolve_dose med none =
      (med.standard_dose, ["Standard dose: " ++ med.standard_dose, reviewMsg]) := by
    simp only [resolve_dose, hr, ht2, truthyStr, Bool.false_and, Bool.false_eq_true, if_false,
      if_true]
    rfl
  refine ⟨hest, hcat, ?_⟩
  simp only [suggest_medication, hdb, hest, hcat, hres,
    show categorize_egfr none = none from rfl]
  exact ⟨_, rfl, rfl, rfl⟩

/-- Witness for C5: a patient with creatinine but no weight, candidate
metformin (which has adjustment rules). -/
theorem C5_witness :
    ∃ s, suggest_medication ⟨"P-thin", 80, "F", none, none, some 1.0, [], none⟩ "metformin" [] =
        Except.ok s ∧
      s.suggested_dose = metformin.standard_dose ∧
      s.rationale = joinSemi ["Standard dose: " ++ metformin.standard_dose, reviewMsg] :=
  (C5_missing_data ⟨"P-thin", 80, "F", none, none, some 1.0, [], none⟩ "metformin" [] metformin
    [("eGFR>=45", "No adjustment"), ("30-44", "Review risks; consider 50% reduction"),
     ("<30", "Contraindicated")]
    (Or.inl rfl) rfl rfl (by decide)).2.2

/-- C6: `suggest_medication` reports the single not-found error exactly when
the lowercased candidate key is absent from the catalog, and for every key
whose lowercasing is present it returns a `Suggestion`; nothing else aborts
the pipeline. -/
theorem C6_catalog_miss_only_error (p : Patient) (key : String) (meds : List Medication) :
    (suggest_medication p key meds = Except.error "Medication not in DB" ↔
      DRUG_DB.lookup (pyLower key) = none) ∧
    ∀ med, DRUG_DB.lookup (pyLower key) = some med →
      ∃ s, suggest_medication p key meds = Except.ok s := by
  cases h : DRUG_DB.lookup (pyLower key) with
  | none =>
    refine ⟨by simp [suggest_medication, h], fun med hm => absurd hm (by simp)⟩
  | some med =>
    refine ⟨by simp [suggest_medication, h], fun med' hm' => ?_⟩
    simp only [suggest_medication, h]
    exact ⟨_, rfl⟩

/-- Witness for C6: the mixed-case key "Enoxaparin" resolves case-insensitively
and yields a suggestion. -/
theorem C6_witness :
    ∃ s, suggest_medication ⟨"P-w", 30, "M", none, none, none, [], none⟩ "Enoxaparin" [] =
      Except.ok s :=
  (C6_catalog_miss_only_error ⟨"P-w", 30, "M", none, none, none, [], none⟩ "Enoxaparin" []).2
    enoxaparin rfl

/-- C7: the allergy check warns exactly when some patient allergy, lowercased,
is a substring of the lowercased medication display name; in particular
"penicillin" against "Amoxicillin" yields no warning while "amoxicillin"
against "Amoxicillin" yields one. -/
theorem C7_allergy_substring :
    (∀ (p : Patient) (m : Medication),
        (check_allergy p m).isSome = true ↔
          ∃ a ∈ p.allergies, substrB (pyLower a).data (pyLower m.name).data = true) ∧
    check_allergy ⟨"P-pen", 30, "F", none, none, none, ["penicillin"], none⟩ amoxicillin = none ∧
    check_allergy ⟨"P-amo", 30, "F", none, none, none, ["amoxicillin"], none⟩ amoxicillin =
      some (allergyMsg "amoxicillin" "Amoxicillin") :=
  ⟨fun p m => allergyScan_isSome_iff m p.allergies, by decide, by decide⟩

/-- C8: the interaction check produces, per current medication and in list
order, at most one warning, obtained by looking up both orderings of the
lowercased pair; whether a warning is found is symmetric in the pair, and the
candidate "enoxaparin" against current "warfarin" yields exactly the one
bleeding-risk warning. -/
theorem C8_interaction_symmetric :
    (∀ (names : List String) (cand : Medication),
        check_interactions names cand =
          names.filterMap fun cm => pairLookupBoth (pyLower cand.name) (pyLower cm)) ∧
    (∀ a b : String, (pairLookupBoth a b).isSome = (pairLookupBoth b a).isSome) ∧
    check_interactions ["warfarin"] enoxaparin =
      ["Increased bleeding risk — monitor INR & adjust"] :=
  ⟨check_interactions_eq_filterMap, pairLookupBoth_isSome_comm, by decide⟩

/-- C9 counterexample: on the demo patient (age 72, sex "F", 60 kg,
1.6 mg/dL) the clearance estimate is 30.1 mL/min, not approximately
30.7 as claimed: ((140 − 72) · 60) / (72 · 1.6) · 0.85 = 30.104…, and the
one-decimal contract rounds it to 30.1, which differs from 30.7. -/
theorem C9_counterexample :
    estimate_creatinine_clearance demoPatient = some (301 / 10) ∧
      ((301 : ℚ) / 10) ≠ 307 / 10 :=
  ⟨demoPatient_estimate, by norm_num⟩

/-- C9 amended: for the demo patient with current med metformin and candidate
"enoxaparin", the clearance estimate is 30.1 mL/min (not 30.7), the category
is "30-49", enoxaparin's rules have no exact "30-49" key so dose resolution
falls through to the standard dose with only the standard-dose rationale
clause, and the warnings list is exactly the numeric-clearance disclosure
(trivially last). -/
theorem C9_amended :
    estimate_creatinine_clearance demoPatient = some (301 / 10) ∧
    categorize_egfr (some ((301 : ℚ) / 10)) = some "30-49" ∧
    (enoxaparin.renal_adjustment.getD []).lookup "30-49" = none ∧
    resolve_dose enoxaparin (some "30-49") =
      (enoxaparin.standard_dose, ["Standard dose: " ++ enoxaparin.standard_dose]) ∧
    suggest_medication demoPatient "enoxaparin" [metformin] = Except.ok
      { med := enoxaparin
        suggested_dose := "1 mg/kg SC q12h (or 40 mg daily prophylaxis)"
        rationale := "Standard dose: 1 mg/kg SC q12h (or 40 mg daily prophylaxis)"
        warnings := [crclMsg (301 / 10)] } := by
  have hcat : categorize_egfr (some ((301 : ℚ) / 10)) = some "30-49" := by
    unfold categorize_egfr
    norm_num
  refine ⟨demoPatient_estimate, hcat, by decide, by decide, ?_⟩
  simp only [suggest_medication,
    show DRUG_DB.lookup (pyLower "enoxaparin") = some enoxaparin from rfl,
    demoPatient_estimate, hcat,
    show check_allergy demoPatient enoxaparin = none from by decide,
    show is_duplicate (List.map (fun m => m.name) [metformin]) enoxaparin = false from by decide,
    show check_interactions (List.map (fun m => m.name) [metformin]) enoxaparin = []
      from by decide,
    show resolve_dose enoxaparin (some "30-49") =
      ("1 mg/kg SC q12h (or 40 mg daily prophylaxis)",
       ["Standard dose: 1 mg/kg SC q12h (or 40 mg daily prophylaxis)"]) from by decide]
  rfl

/-- C10: every non-positive numeric clearance is categorized into the "<30"
band, the classifier's final unknown branch is unreachable for numeric input,
and such values are reachable at the public interface: a negative serum
creatinine slips through the estimator and yields the numeric estimate −100,
which lands in "<30" — the strictest renal band. -/
theorem C10_nonpositive_to_strictest :
    (∀ q : ℚ, q ≤ 0 → categorize_egfr (some q) = some "<30") ∧
    (∀ q : ℚ, categorize_egfr (some q) ≠ none) ∧
    estimate_creatinine_clearance negCrPatient = some (-100) ∧
    categorize_egfr (estimate_creatinine_clearance negCrPatient) = some "<30" := by
  refine ⟨fun q hq => ?_, fun q => ?_, negCrPatient_estimate, ?_⟩
  · simp only [categorize_egfr, ge_iff_le]
    rw [if_neg (by linarith), if_neg (by rintro ⟨h, -⟩; linarith), if_pos (by linarith)]
  · simp only [categorize_egfr, ge_iff_le]
    by_cases h1 : 50 ≤ q
    · rw [if_pos h1]; exact Option.some_ne_none _
    · rw [if_neg h1]
      by_cases h2 : 30 ≤ q
      · rw [if_pos (show 30 ≤ q ∧ q < 50 from ⟨h2, lt_of_not_le h1⟩)]
        exact Option.some_ne_none _
      · rw [if_neg (fun hh => h2 hh.1), if_pos (lt_of_not_le h2)]
        exact Option.some_ne_none _
  · rw [negCrPatient_estimate]
    simp only [categorize_egfr, ge_iff_le]
    norm_num

/-- Witness for C10 at the concrete clearance −100. -/
theorem C10_witness :
    categorize_egfr (some (-100 : ℚ)) = some "<30" :=
  C10_nonpositive_to_strictest.1 (-100) (by norm_num)

end Demo28
